import Mathlib

/-!
Verification of the learning-progress tracker's core logic (streak tracking,
spaced-repetition scheduling, roadmap completion percentages, and JSON
persistence), shallowly embedded from the Python sources
`business_logic.py`, `models.py` and `persistence.py`.

Modelling conventions:
* Calendar days (`YYYY-MM-DD` strings parsed with `strptime` in the source)
  are modelled as `Nat` day numbers; a difference of one day in the source is
  a difference of one in the model.
* Timestamps (ISO strings produced by `datetime.now().isoformat()` and parsed
  with `fromisoformat`) are modelled as `Nat` hours, so `timedelta(days=7)`
  is `7 * 24` and `timedelta(hours=6)` is `6`.
* Python floats (`duration_hours`, `total_hours`) are modelled as `Rat`;
  the code only stores and adds them.
* Python ints that the data model declares non-negative (streaks, counters)
  are modelled as `Nat`.
* `sorted(sessions_by_date.keys())` — the ascending list of distinct session
  dates — is modelled as `insertionSort (· ≤ ·)` of `dedup`, which yields the
  same list (the sorted list of the distinct dates).
-/

namespace AICoach

/-- Status of a roadmap milestone (`models.MilestoneStatus`). -/
inductive MilestoneStatus
  | not_started
  | in_progress
  | completed
deriving DecidableEq, Repr

/-- Status of a learning resource (`models.ResourceStatus`). -/
inductive ResourceStatus
  | todo
  | in_progress
  | completed
deriving DecidableEq, Repr

/-- Difficulty level (`models.DifficultyLevel`). -/
inductive DifficultyLevel
  | beginner
  | intermediate
  | advanced
deriving DecidableEq, Repr

/-- Status of a flashcard (`models.CardStatus`). -/
inductive CardStatus
  | new
  | reviewing
  | difficult
  | mastered
deriving DecidableEq, Repr

/-- Status of a GitHub project (`models.ProjectStatus`). -/
inductive ProjectStatus
  | planning
  | in_progress
  | completed
deriving DecidableEq, Repr

/-- `models.WeeklyTask`. -/
structure WeeklyTask where
  task_id : String
  name : String
  description : String
  status : MilestoneStatus := .not_started
  priority : Nat := 1
deriving DecidableEq, Repr

/-- `models.Week`. -/
structure Week where
  week_num : Nat
  name : String
  description : String
  tasks : List WeeklyTask := []
  status : MilestoneStatus := .not_started
deriving DecidableEq, Repr

/-- `models.Month`. -/
structure Month where
  month_num : Nat
  name : String
  description : String
  weeks : List Week := []
  status : MilestoneStatus := .not_started
deriving DecidableEq, Repr

/-- `models.Quarter`. -/
structure Quarter where
  quarter_num : Nat
  name : String
  description : String
  focus_areas : List String := []
  months : List Month := []
  status : MilestoneStatus := .not_started
deriving DecidableEq, Repr

/-- `models.Year`. -/
structure Year where
  year_num : Nat
  name : String
  description : String
  focus_areas : List String := []
  quarters : List Quarter := []
  status : MilestoneStatus := .not_started
deriving DecidableEq, Repr

/-- `models.Roadmap`; the `created_at`/`last_updated` ISO strings are opaque
to the logic and kept as `String`. -/
structure Roadmap where
  years : List Year := []
  created_at : String := ""
  last_updated : String := ""
deriving DecidableEq, Repr

/-- `models.DailySession`; `date` is a calendar-day number. -/
structure DailySession where
  date : Nat
  duration_hours : Rat
  topics_covered : List String
  resources_used : List String
  notes : String
  mood : Option String := none
  session_id : String := ""
deriving DecidableEq, Repr

/-- `models.ProgressState`. -/
structure ProgressState where
  daily_sessions : List DailySession := []
  current_streak : Nat := 0
  longest_streak : Nat := 0
  last_session_date : Option Nat := none
  total_hours : Rat := 0
  completed_milestones : Nat := 0
  total_milestones : Nat := 0
  updated_at : String := ""
deriving DecidableEq, Repr

/-- `models.Resource`. -/
structure Resource where
  resource_id : String
  title : String
  resource_type : String
  url : String
  difficulty : DifficultyLevel
  description : String
  mapped_topics : List String
  status : ResourceStatus := .todo
  added_date : String := ""
  completion_date : Option String := none
  notes : String := ""
deriving DecidableEq, Repr

/-- `models.Flashcard`; `last_reviewed` and `next_review` are timestamps in
hours (`none` = Python `None`), `created_at` is an opaque ISO string. -/
structure Flashcard where
  card_id : String
  question : String
  answer : String
  topic : String
  status : CardStatus := .new
  difficulty : DifficultyLevel := .beginner
  review_count : Nat := 0
  last_reviewed : Option Nat := none
  created_at : String := ""
  next_review : Option Nat := none
deriving DecidableEq, Repr

/-- `models.FlashcardDeck`. -/
structure FlashcardDeck where
  deck_id : String
  topic : String
  description : String
  cards : List Flashcard := []
  created_at : String := ""
  total_reviews : Nat := 0
deriving DecidableEq, Repr

/-- `models.GitHubProject`. -/
structure GitHubProject where
  project_id : String
  name : String
  repo_url : String
  description : String
  skills_covered : List String
  status : ProjectStatus := .planning
  created_at : String := ""
  last_updated : String := ""
  notes : String := ""
  has_readme : Bool := false
  has_docs : Bool := false
  has_tests : Bool := false
  has_demo : Bool := false
  blog_post_url : Option String := none
deriving DecidableEq, Repr

/-- `models.WeeklyTip`. -/
structure WeeklyTip where
  tip_id : String
  week : Nat
  category : String
  title : String
  content : String
  source : String
  created_at : String := ""
deriving DecidableEq, Repr

/-- `models.AppState`. -/
structure AppState where
  roadmap : Roadmap
  progress : ProgressState
  resources : List Resource := []
  flashcard_decks : List FlashcardDeck := []
  github_projects : List GitHubProject := []
  weekly_tips : List WeeklyTip := []
  last_updated : String := ""
deriving DecidableEq, Repr

/-! ## Streak tracking (`ProgressManager._update_streak`, business_logic.py 162-204) -/

/-- The ascending list of distinct session dates: `sorted({s.date: s}.keys())`. -/
def sortedDates (sessions : List DailySession) : List Nat :=
  List.insertionSort (· ≤ ·) (sessions.map (·.date)).dedup

/-- The `for i, date in enumerate(dates)` loop of `_update_streak`, carrying
`(longest_streak, temp_streak)` with `prev` the previously seen date.
`(curr_date - prev_date).days == 1` becomes `d - prev = 1` (on `Nat` this
holds exactly when `d = prev + 1`, matching the exact-day difference). -/
def streak_loop (prev longest temp : Nat) : List Nat → Nat × Nat
  | [] => (longest, temp)
  | d :: ds =>
    if d - prev = 1 then streak_loop d longest (temp + 1) ds
    else streak_loop d (max longest temp) 1 ds

/-- `ProgressManager._update_streak`, recomputing `current_streak` and
`longest_streak` from `daily_sessions`; `today` is `datetime.now().date()`.
On an empty session list the source sets `current_streak = 0` and returns
early (leaving `longest_streak` untouched). -/
def update_streak (today : Nat) (p : ProgressState) : ProgressState :=
  if p.daily_sessions = [] then { p with current_streak := 0 }
  else
    let dates := sortedDates p.daily_sessions
    let lt : Nat × Nat :=
      match dates with
      | [] => (0, 1)
      | d :: ds => streak_loop d 0 1 ds
    let longest := max lt.1 lt.2
    let current : Nat :=
      match dates.getLast? with
      | none => 0
      | some last =>
        if (today : Int) - (last : Int) = 0 then lt.2
        else if (today : Int) - (last : Int) = 1 then lt.2
        else 0
    { p with current_streak := current, longest_streak := longest }

/-- `ProgressManager.log_session` (business_logic.py 139-160): appends the new
session unconditionally (no validation of `duration_hours`), updates
`total_hours` and `last_session_date`, then recomputes the streaks. -/
def log_session (today : Nat) (duration_hours : Rat) (topics resources : List String)
    (notes : String) (mood : Option String) (p : ProgressState) : ProgressState :=
  let session : DailySession :=
    { date := today
      duration_hours := duration_hours
      topics_covered := topics
      resources_used := resources
      notes := notes
      mood := mood }
  update_streak today
    { p with
      daily_sessions := p.daily_sessions ++ [session]
      total_hours := p.total_hours + duration_hours
      last_session_date := some today }

/-! ## Flashcards (`FlashcardManager`, business_logic.py 314-418) -/

/-- The per-card body of `FlashcardManager.mark_card_review` (lines 371-391):
increment `review_count`, stamp `last_reviewed`, apply the outcome table,
then force a still-NEW card to REVIEWING. `now` is `datetime.now()` in
hours; the intervals are 30 days, 7 days, 1 day and 6 hours. -/
def reviewCard (now : Nat) (result : String) (card : Flashcard) : Flashcard :=
  let card := { card with review_count := card.review_count + 1, last_reviewed := some now }
  let card :=
    if result = "mastered" then
      { card with status := .mastered, next_review := some (now + 30 * 24) }
    else if result = "easy" then
      { card with status := .reviewing, next_review := some (now + 7 * 24) }
    else if result = "hard" then
      { card with status := .reviewing, next_review := some (now + 1 * 24) }
    else if result = "difficult" then
      { card with status := .difficult, next_review := some (now + 6) }
    else card
  if card.status = .new then { card with status := .reviewing } else card

/-- Replace the first card whose `card_id` matches by its reviewed version;
`none` when the id occurs in none of the cards. -/
def markCardInList (now : Nat) (card_id result : String) :
    List Flashcard → Option (List Flashcard)
  | [] => none
  | c :: cs =>
    if c.card_id = card_id then some (reviewCard now result c :: cs)
    else
      match markCardInList now card_id result cs with
      | some cs' => some (c :: cs')
      | none => none

/-- `FlashcardManager.mark_card_review` (business_logic.py 366-393): scan the
decks for the first card with the given id; on a hit also increment that
deck's `total_reviews` and return `true`, otherwise return `false`. -/
def mark_card_review (now : Nat) (card_id result : String) :
    List FlashcardDeck → List FlashcardDeck × Bool
  | [] => ([], false)
  | d :: ds =>
    match markCardInList now card_id result d.cards with
    | some cs' => ({ d with cards := cs', total_reviews := d.total_reviews + 1 } :: ds, true)
    | none =>
      let r := mark_card_review now card_id result ds
      (d :: r.1, r.2)

/-- The priority assigned to a card by `FlashcardManager.get_cards_for_review`
(business_logic.py 353-361): 0 for NEW, 1 for DIFFICULT, 2 when `next_review`
is set and has arrived, 3 otherwise. -/
def codeTier (now : Nat) (c : Flashcard) : Nat :=
  if c.status = .new then 0
  else if c.status = .difficult then 1
  else
    match c.next_review with
    | some t => if t ≤ now then 2 else 3
    | none => 3

/-- Python's stable sort by the key `(tier c, c.review_count)` is modelled as
`insertionSort` with this total preorder; both are stable sorts for the same
key, hence produce the same list. -/
def tierOrder (tier : Flashcard → Nat) (a b : Flashcard) : Prop :=
  tier a < tier b ∨ (tier a = tier b ∧ a.review_count ≤ b.review_count)

instance (tier : Flashcard → Nat) : DecidableRel (tierOrder tier) := by
  intro a b
  unfold tierOrder
  infer_instance

/-- `FlashcardManager.get_cards_for_review` (business_logic.py 345-364):
flatten deck cards in order, stable-sort by `(priority, review_count)`,
return the first `num_cards`. -/
def get_cards_for_review (now : Nat) (num_cards : Nat) (decks : List FlashcardDeck) :
    List Flashcard :=
  let all_cards := (decks.map (·.cards)).flatten
  (List.insertionSort (tierOrder (codeTier now)) all_cards).take num_cards

/-! ## Roadmap completion (`RoadmapManager._calculate_completion`, business_logic.py 99-116) -/

/-- The possible arguments of `_calculate_completion`; the `hasattr` chain
picks `quarters` on a `Year`, `months` on a `Quarter`, `weeks` on a `Month`
and `tasks` on a `Week`. -/
inductive RoadmapNode
  | year (y : Year)
  | quarter (q : Quarter)
  | month (m : Month)
  | week (w : Week)
deriving Repr

/-- The statuses of the child items the `hasattr` chain selects. -/
def RoadmapNode.childStatuses : RoadmapNode → List MilestoneStatus
  | .year y => y.quarters.map (·.status)
  | .quarter q => q.months.map (·.status)
  | .month m => m.weeks.map (·.status)
  | .week w => w.tasks.map (·.status)

/-- `RoadmapManager._calculate_completion`: 0 for an empty child list,
otherwise `int(100 * completed / len(items))`.  With `0 ≤ completed ≤ len`
and lists of at most a few hundred items, the float division followed by
`int()` truncation equals exact `Nat` division. -/
def calculate_completion (node : RoadmapNode) : Nat :=
  let items := node.childStatuses
  if items = [] then 0
  else 100 * items.countP (· = .completed) / items.length

/-! ## Spec-side notions for the streak claims

A "run" in the spec's sense is a block of consecutive dates inside the sorted
distinct-date sequence: each date is one day after the previous one. -/

/-- Two dates are consecutive days. -/
def consecutive (a b : Nat) : Prop := b = a + 1

/-- `r` is a run of consecutive dates somewhere inside `dates`. -/
def IsRun (dates r : List Nat) : Prop :=
  r <:+: dates ∧ List.Chain' consecutive r

/-- `r` is a run of consecutive dates ending at the most recent date of
`dates` (a suffix). -/
def IsEndRun (dates r : List Nat) : Prop :=
  r <:+ dates ∧ List.Chain' consecutive r

/-! ## Spec-side selection ordering for `get_cards_for_review`

The spec describes the selection tiers in its own words; `claimTier` is the
tier function exactly as the spec sentence states it (tier 2 restricted to
REVIEWING cards), `claimTierAmended` the nearby statement actually realised
by the code (tier 2 is any non-NEW, non-DIFFICULT card whose `next_review`
has arrived, a due MASTERED card included). -/

instance decDueBy (o : Option Nat) (now : Nat) : Decidable (∃ t, o = some t ∧ t ≤ now) :=
  match o with
  | none => isFalse (by simp)
  | some t => if h : t ≤ now then isTrue ⟨t, rfl, h⟩ else isFalse (by simp [h])

/-- Tier function transcribed from the spec sentence: NEW cards first, then
DIFFICULT-status cards, then REVIEWING cards whose `next_review ≤ as_of`,
then all remaining cards. -/
def claimTier (now : Nat) (c : Flashcard) : Nat :=
  if c.status = .new then 0
  else if c.status = .difficult then 1
  else if c.status = .reviewing ∧ ∃ t, c.next_review = some t ∧ t ≤ now then 2
  else 3

/-- Tier function of the amended claim: tier 2 is any card (MASTERED
included) whose `next_review` is set and has arrived. -/
def claimTierAmended (now : Nat) (c : Flashcard) : Nat :=
  if c.status = .new then 0
  else if c.status = .difficult then 1
  else if ∃ t, c.next_review = some t ∧ t ≤ now then 2
  else 3

/-- The selection the spec sentence describes: stable-sort all cards by
`(claimTier, review_count)` and take the first `limit`. -/
def select_due_claim (now limit : Nat) (decks : List FlashcardDeck) : List Flashcard :=
  (List.insertionSort (tierOrder (claimTier now)) ((decks.map (·.cards)).flatten)).take limit

/-- The amended selection: stable-sort by `(claimTierAmended, review_count)`
and take the first `limit`. -/
def select_due_amended (now limit : Nat) (decks : List FlashcardDeck) : List Flashcard :=
  (List.insertionSort (tierOrder (claimTierAmended now)) ((decks.map (·.cards)).flatten)).take limit

/-! ## JSON document model (`persistence.py`)

`StorageManager._serialize_state` produces a JSON document (nested dicts,
lists, strings, ints, floats, bools, nulls) and `_deserialize_state` reads it
back, with `d[k]` raising on a missing key (modelled by `Option`) and
`d.get(k, default)` supplying a default. Python's `json` round-trips ints and
floats as distinct values, hence separate `nat`/`rat` constructors. -/

inductive JValue
  | null
  | bool (b : Bool)
  | nat (n : Nat)
  | rat (q : Rat)
  | str (s : String)
  | arr (items : List JValue)
  | obj (fields : List (String × JValue))

/-- Key lookup in a serialized dict. -/
def lookupField : List (String × JValue) → String → Option JValue
  | [], _ => none
  | (k, v) :: fs, key => if k = key then some v else lookupField fs key

/-- `d[k]`: `none` models the `KeyError` / non-dict failure. -/
def JValue.lookup : JValue → String → Option JValue
  | .obj fs, key => lookupField fs key
  | _, _ => none

/-- `d.get(k, default)`. -/
def JValue.getD (j : JValue) (key : String) (default : JValue) : JValue :=
  (j.lookup key).getD default

/-- Read a string; any other shape is a type error in the consuming code. -/
def JValue.asStr : JValue → Option String
  | .str s => some s
  | _ => none

/-- Read an int. -/
def JValue.asNat : JValue → Option Nat
  | .nat n => some n
  | _ => none

/-- Read a float. -/
def JValue.asRat : JValue → Option Rat
  | .rat q => some q
  | _ => none

/-- Read a bool. -/
def JValue.asBool : JValue → Option Bool
  | .bool b => some b
  | _ => none

/-- Read an optional string (`None` ↦ `null`). -/
def JValue.asOptStr : JValue → Option (Option String)
  | .null => some none
  | .str s => some (some s)
  | _ => none

/-- Read an optional int/timestamp (`None` ↦ `null`). -/
def JValue.asOptNat : JValue → Option (Option Nat)
  | .null => some none
  | .nat n => some (some n)
  | _ => none

/-- Read a list. -/
def JValue.asArr : JValue → Option (List JValue)
  | .arr l => some l
  | _ => none

/-- The Python list comprehension over deserializers: the first failing
element aborts the whole load (an exception propagates). -/
def optMap {α β : Type} (g : α → Option β) : List α → Option (List β)
  | [] => some []
  | a :: l =>
    match g a, optMap g l with
    | some b, some bs => some (b :: bs)
    | _, _ => none

/-- Read a list of strings. -/
def JValue.asStrList (j : JValue) : Option (List String) :=
  j.asArr.bind (optMap JValue.asStr)

/-- Serialize an optional string. -/
def jOptStr : Option String → JValue
  | none => .null
  | some s => .str s

/-- Serialize an optional int/timestamp. -/
def jOptNat : Option Nat → JValue
  | none => .null
  | some n => .nat n

/-- Serialize a list of strings. -/
def jStrList (l : List String) : JValue :=
  .arr (l.map .str)

/-- `MilestoneStatus.value` (the `Enum` value). -/
def MilestoneStatus.value : MilestoneStatus → String
  | .not_started => "not_started"
  | .in_progress => "in_progress"
  | .completed => "completed"

/-- `MilestoneStatus(v)`: the `Enum` constructor, raising on unknown values. -/
def MilestoneStatus.ofValue (s : String) : Option MilestoneStatus :=
  if s = "not_started" then some .not_started
  else if s = "in_progress" then some .in_progress
  else if s = "completed" then some .completed
  else none

/-- `ResourceStatus.value`. -/
def ResourceStatus.value : ResourceStatus → String
  | .todo => "todo"
  | .in_progress => "in_progress"
  | .completed => "completed"

/-- `ResourceStatus(v)`. -/
def ResourceStatus.ofValue (s : String) : Option ResourceStatus :=
  if s = "todo" then some .todo
  else if s = "in_progress" then some .in_progress
  else if s = "completed" then some .completed
  else none

/-- `DifficultyLevel.value`. -/
def DifficultyLevel.value : DifficultyLevel → String
  | .beginner => "beginner"
  | .intermediate => "intermediate"
  | .advanced => "advanced"

/-- `DifficultyLevel(v)`. -/
def DifficultyLevel.ofValue (s : String) : Option DifficultyLevel :=
  if s = "beginner" then some .beginner
  else if s = "intermediate" then some .intermediate
  else if s = "advanced" then some .advanced
  else none

/-- `CardStatus.value`. -/
def CardStatus.value : CardStatus → String
  | .new => "new"
  | .reviewing => "reviewing"
  | .difficult => "difficult"
  | .mastered => "mastered"

/-- `CardStatus(v)`. -/
def CardStatus.ofValue (s : String) : Option CardStatus :=
  if s = "new" then some .new
  else if s = "reviewing" then some .reviewing
  else if s = "difficult" then some .difficult
  else if s = "mastered" then some .mastered
  else none

/-- `ProjectStatus.value`. -/
def ProjectStatus.value : ProjectStatus → String
  | .planning => "planning"
  | .in_progress => "in_progress"
  | .completed => "completed"

/-- `ProjectStatus(v)`. -/
def ProjectStatus.ofValue (s : String) : Option ProjectStatus :=
  if s = "planning" then some .planning
  else if s = "in_progress" then some .in_progress
  else if s = "completed" then some .completed
  else none

/-! ### Serializers (`StorageManager._serialize_*`) -/

/-- Task dict of `_serialize_roadmap`. -/
def serializeTask (t : WeeklyTask) : JValue :=
  .obj [("task_id", .str t.task_id), ("name", .str t.name),
        ("description", .str t.description), ("status", .str t.status.value),
        ("priority", .nat t.priority)]

/-- Week dict of `_serialize_roadmap`. -/
def serializeWeek (w : Week) : JValue :=
  .obj [("week_num", .nat w.week_num), ("name", .str w.name),
        ("description", .str w.description), ("status", .str w.status.value),
        ("tasks", .arr (w.tasks.map serializeTask))]

/-- Month dict of `_serialize_roadmap`. -/
def serializeMonth (m : Month) : JValue :=
  .obj [("month_num", .nat m.month_num), ("name", .str m.name),
        ("description", .str m.description), ("status", .str m.status.value),
        ("weeks", .arr (m.weeks.map serializeWeek))]

/-- Quarter dict of `_serialize_roadmap`. -/
def serializeQuarter (q : Quarter) : JValue :=
  .obj [("quarter_num", .nat q.quarter_num), ("name", .str q.name),
        ("description", .str q.description), ("focus_areas", jStrList q.focus_areas),
        ("status", .str q.status.value), ("months", .arr (q.months.map serializeMonth))]

/-- Year dict of `_serialize_roadmap`. -/
def serializeYear (y : Year) : JValue :=
  .obj [("year_num", .nat y.year_num), ("name", .str y.name),
        ("description", .str y.description), ("focus_areas", jStrList y.focus_areas),
        ("status", .str y.status.value), ("quarters", .arr (y.quarters.map serializeQuarter))]

/-- `StorageManager._serialize_roadmap`. -/
def serialize_roadmap (r : Roadmap) : JValue :=
  .obj [("years", .arr (r.years.map serializeYear)),
        ("created_at", .str r.created_at), ("last_updated", .str r.last_updated)]

/-- Session dict of `_serialize_progress`. -/
def serializeSession (s : DailySession) : JValue :=
  .obj [("date", .nat s.date), ("duration_hours", .rat s.duration_hours),
        ("topics_covered", jStrList s.topics_covered),
        ("resources_used", jStrList s.resources_used), ("notes", .str s.notes),
        ("mood", jOptStr s.mood), ("session_id", .str s.session_id)]

/-- `StorageManager._serialize_progress`. -/
def serialize_progress (p : ProgressState) : JValue :=
  .obj [("daily_sessions", .arr (p.daily_sessions.map serializeSession)),
        ("current_streak", .nat p.current_streak),
        ("longest_streak", .nat p.longest_streak),
        ("last_session_date", jOptNat p.last_session_date),
        ("total_hours", .rat p.total_hours),
        ("completed_milestones", .nat p.completed_milestones),
        ("total_milestones", .nat p.total_milestones),
        ("updated_at", .str p.updated_at)]

/-- `StorageManager._serialize_resource`. -/
def serializeResource (r : Resource) : JValue :=
  .obj [("resource_id", .str r.resource_id), ("title", .str r.title),
        ("resource_type", .str r.resource_type), ("url", .str r.url),
        ("difficulty", .str r.difficulty.value), ("description", .str r.description),
        ("mapped_topics", jStrList r.mapped_topics), ("status", .str r.status.value),
        ("added_date", .str r.added_date), ("completion_date", jOptStr r.completion_date),
        ("notes", .str r.notes)]

/-- Card dict of `_serialize_deck`. -/
def serializeCard (c : Flashcard) : JValue :=
  .obj [("card_id", .str c.card_id), ("question", .str c.question),
        ("answer", .str c.answer), ("topic", .str c.topic),
        ("status", .str c.status.value), ("difficulty", .str c.difficulty.value),
        ("review_count", .nat c.review_count), ("last_reviewed", jOptNat c.last_reviewed),
        ("created_at", .str c.created_at), ("next_review", jOptNat c.next_review)]

/-- `StorageManager._serialize_deck`. -/
def serialize_deck (d : FlashcardDeck) : JValue :=
  .obj [("deck_id", .str d.deck_id), ("topic", .str d.topic),
        ("description", .str d.description), ("cards", .arr (d.cards.map serializeCard)),
        ("created_at", .str d.created_at), ("total_reviews", .nat d.total_reviews)]

/-- `StorageManager._serialize_project`. -/
def serializeProject (p : GitHubProject) : JValue :=
  .obj [("project_id", .str p.project_id), ("name", .str p.name),
        ("repo_url", .str p.repo_url), ("description", .str p.description),
        ("skills_covered", jStrList p.skills_covered), ("status", .str p.status.value),
        ("created_at", .str p.created_at), ("last_updated", .str p.last_updated),
        ("notes", .str p.notes), ("has_readme", .bool p.has_readme),
        ("has_docs", .bool p.has_docs), ("has_tests", .bool p.has_tests),
        ("has_demo", .bool p.has_demo), ("blog_post_url", jOptStr p.blog_post_url)]

/-- `StorageManager._serialize_tip`. -/
def serializeTip (t : WeeklyTip) : JValue :=
  .obj [("tip_id", .str t.tip_id), ("week", .nat t.week),
        ("category", .str t.category), ("title", .str t.title),
        ("content", .str t.content), ("source", .str t.source),
        ("created_at", .str t.created_at)]

/-- `StorageManager._serialize_state`. -/
def serialize_state (st : AppState) : JValue :=
  .obj [("roadmap", serialize_roadmap st.roadmap),
        ("progress", serialize_progress st.progress),
        ("resources", .arr (st.resources.map serializeResource)),
        ("flashcard_decks", .arr (st.flashcard_decks.map serialize_deck)),
        ("github_projects", .arr (st.github_projects.map serializeProject)),
        ("weekly_tips", .arr (st.weekly_tips.map serializeTip)),
        ("last_updated", .str st.last_updated)]

/-! ### Deserializers (`StorageManager._deserialize_*`)

`now` stands for the `datetime.now().isoformat()` defaults used for absent
timestamp keys. -/

/-- Task entry of `_deserialize_roadmap`. -/
def deserializeTask (j : JValue) : Option WeeklyTask :=
  match (j.lookup "task_id").bind JValue.asStr, (j.lookup "name").bind JValue.asStr,
      (j.lookup "description").bind JValue.asStr,
      (j.getD "status" (.str "not_started")).asStr.bind MilestoneStatus.ofValue,
      (j.getD "priority" (.nat 1)).asNat with
  | some tid, some nm, some ds, some st, some pr => some ⟨tid, nm, ds, st, pr⟩
  | _, _, _, _, _ => none

/-- Week entry of `_deserialize_roadmap`. -/
def deserializeWeek (j : JValue) : Option Week :=
  match (j.lookup "week_num").bind JValue.asNat, (j.lookup "name").bind JValue.asStr,
      (j.lookup "description").bind JValue.asStr,
      ((j.getD "tasks" (.arr [])).asArr.bind (optMap deserializeTask)),
      (j.getD "status" (.str "not_started")).asStr.bind MilestoneStatus.ofValue with
  | some wn, some nm, some ds, some ts, some st => some ⟨wn, nm, ds, ts, st⟩
  | _, _, _, _, _ => none

/-- Month entry of `_deserialize_roadmap`. -/
def deserializeMonth (j : JValue) : Option Month :=
  match (j.lookup "month_num").bind JValue.asNat, (j.lookup "name").bind JValue.asStr,
      (j.lookup "description").bind JValue.asStr,
      ((j.getD "weeks" (.arr [])).asArr.bind (optMap deserializeWeek)),
      (j.getD "status" (.str "not_started")).asStr.bind MilestoneStatus.ofValue with
  | some mn, some nm, some ds, some ws, some st => some ⟨mn, nm, ds, ws, st⟩
  | _, _, _, _, _ => none

/-- Quarter entry of `_deserialize_roadmap`. -/
def deserializeQuarter (j : JValue) : Option Quarter :=
  match (j.lookup "quarter_num").bind JValue.asNat, (j.lookup "name").bind JValue.asStr,
      (j.lookup "description").bind JValue.asStr,
      (j.getD "focus_areas" (.arr [])).asStrList,
      ((j.getD "months" (.arr [])).asArr.bind (optMap deserializeMonth)),
      (j.getD "status" (.str "not_started")).asStr.bind MilestoneStatus.ofValue with
  | some qn, some nm, some ds, some fa, some ms, some st => some ⟨qn, nm, ds, fa, ms, st⟩
  | _, _, _, _, _, _ => none

/-- Year entry of `_deserialize_roadmap`. -/
def deserializeYear (j : JValue) : Option Year :=
  match (j.lookup "year_num").bind JValue.asNat, (j.lookup "name").bind JValue.asStr,
      (j.lookup "description").bind JValue.asStr,
      (j.getD "focus_areas" (.arr [])).asStrList,
      ((j.getD "quarters" (.arr [])).asArr.bind (optMap deserializeQuarter)),
      (j.getD "status" (.str "not_started")).asStr.bind MilestoneStatus.ofValue with
  | some yn, some nm, some ds, some fa, some qs, some st => some ⟨yn, nm, ds, fa, qs, st⟩
  | _, _, _, _, _, _ => none

/-- `StorageManager._deserialize_roadmap`. -/
def deserialize_roadmap (now : String) (j : JValue) : Option Roadmap :=
  match (j.getD "years" (.arr [])).asArr.bind (optMap deserializeYear),
      (j.getD "created_at" (.str now)).asStr,
      (j.getD "last_updated" (.str now)).asStr with
  | some ys, some ca, some lu => some ⟨ys, ca, lu⟩
  | _, _, _ => none

/-- Session entry of `_deserialize_progress`. -/
def deserializeSession (now : String) (j : JValue) : Option DailySession :=
  match (j.lookup "date").bind JValue.asNat,
      (j.lookup "duration_hours").bind JValue.asRat,
      (j.lookup "topics_covered").bind JValue.asStrList,
      (j.lookup "resources_used").bind JValue.asStrList,
      (j.lookup "notes").bind JValue.asStr,
      (j.getD "mood" .null).asOptStr,
      (j.getD "session_id" (.str now)).asStr with
  | some dt, some dh, some tc, some ru, some ns, some md, some sid =>
    some ⟨dt, dh, tc, ru, ns, md, sid⟩
  | _, _, _, _, _, _, _ => none

/-- `StorageManager._deserialize_progress`. -/
def deserialize_progress (now : String) (j : JValue) : Option ProgressState :=
  match (j.getD "daily_sessions" (.arr [])).asArr.bind (optMap (deserializeSession now)),
      (j.getD "current_streak" (.nat 0)).asNat,
      (j.getD "longest_streak" (.nat 0)).asNat,
      (j.getD "last_session_date" .null).asOptNat,
      (j.getD "total_hours" (.rat 0)).asRat,
      (j.getD "completed_milestones" (.nat 0)).asNat,
      (j.getD "total_milestones" (.nat 0)).asNat,
      (j.getD "updated_at" (.str now)).asStr with
  | some ss, some cs, some ls, some lsd, some th, some cm, some tm, some ua =>
    some ⟨ss, cs, ls, lsd, th, cm, tm, ua⟩
  | _, _, _, _, _, _, _, _ => none

/-- `StorageManager._deserialize_resource`. -/
def deserializeResource (now : String) (j : JValue) : Option Resource :=
  match (j.lookup "resource_id").bind JValue.asStr, (j.lookup "title").bind JValue.asStr,
      (j.lookup "resource_type").bind JValue.asStr, (j.lookup "url").bind JValue.asStr,
      ((j.lookup "difficulty").bind JValue.asStr).bind DifficultyLevel.ofValue,
      (j.lookup "description").bind JValue.asStr,
      (j.lookup "mapped_topics").bind JValue.asStrList,
      (j.getD "status" (.str "todo")).asStr.bind ResourceStatus.ofValue,
      (j.getD "added_date" (.str now)).asStr,
      (j.getD "completion_date" .null).asOptStr,
      (j.getD "notes" (.str "")).asStr with
  | some rid, some ti, some rt, some url, some df, some ds, some mt, some st, some ad,
      some cd, some ns => some ⟨rid, ti, rt, url, df, ds, mt, st, ad, cd, ns⟩
  | _, _, _, _, _, _, _, _, _, _, _ => none

/-- Card entry of `_deserialize_deck`. -/
def deserializeCard (now : String) (j : JValue) : Option Flashcard :=
  match (j.lookup "card_id").bind JValue.asStr, (j.lookup "question").bind JValue.asStr,
      (j.lookup "answer").bind JValue.asStr, (j.lookup "topic").bind JValue.asStr,
      (j.getD "status" (.str "new")).asStr.bind CardStatus.ofValue,
      (j.getD "difficulty" (.str "beginner")).asStr.bind DifficultyLevel.ofValue,
      (j.getD "review_count" (.nat 0)).asNat,
      (j.getD "last_reviewed" .null).asOptNat,
      (j.getD "created_at" (.str now)).asStr,
      (j.getD "next_review" .null).asOptNat with
  | some cid, some qn, some an, some tp, some st, some df, some rc, some lr, some ca,
      some nr => some ⟨cid, qn, an, tp, st, df, rc, lr, ca, nr⟩
  | _, _, _, _, _, _, _, _, _, _ => none

/-- `StorageManager._deserialize_deck`. -/
def deserialize_deck (now : String) (j : JValue) : Option FlashcardDeck :=
  match (j.lookup "deck_id").bind JValue.asStr, (j.lookup "topic").bind JValue.asStr,
      (j.lookup "description").bind JValue.asStr,
      (j.getD "cards" (.arr [])).asArr.bind (optMap (deserializeCard now)),
      (j.getD "created_at" (.str now)).asStr,
      (j.getD "total_reviews" (.nat 0)).asNat with
  | some did, some tp, some ds, some cs, some ca, some tr => some ⟨did, tp, ds, cs, ca, tr⟩
  | _, _, _, _, _, _ => none

/-- `StorageManager._deserialize_project`. -/
def deserializeProject (now : String) (j : JValue) : Option GitHubProject :=
  match (j.lookup "project_id").bind JValue.asStr, (j.lookup "name").bind JValue.asStr,
      (j.lookup "repo_url").bind JValue.asStr, (j.lookup "description").bind JValue.asStr,
      (j.lookup "skills_covered").bind JValue.asStrList,
      (j.getD "status" (.str "planning")).asStr.bind ProjectStatus.ofValue,
      (j.getD "created_at" (.str now)).asStr,
      (j.getD "last_updated" (.str now)).asStr,
      (j.getD "notes" (.str "")).asStr,
      (j.getD "has_readme" (.bool false)).asBool,
      (j.getD "has_docs" (.bool false)).asBool,
      (j.getD "has_tests" (.bool false)).asBool,
      (j.getD "has_demo" (.bool false)).asBool,
      (j.getD "blog_post_url" .null).asOptStr with
  | some pid, some nm, some ru, some ds, some sk, some st, some ca, some lu, some ns,
      some hr, some hd, some ht, some hde, some bp =>
    some ⟨pid, nm, ru, ds, sk, st, ca, lu, ns, hr, hd, ht, hde, bp⟩
  | _, _, _, _, _, _, _, _, _, _, _, _, _, _ => none

/-- `StorageManager._deserialize_tip`. -/
def deserializeTip (now : String) (j : JValue) : Option WeeklyTip :=
  match (j.lookup "tip_id").bind JValue.asStr, (j.lookup "week").bind JValue.asNat,
      (j.lookup "category").bind JValue.asStr, (j.lookup "title").bind JValue.asStr,
      (j.lookup "content").bind JValue.asStr,
      (j.getD "source" (.str "template")).asStr,
      (j.getD "created_at" (.str now)).asStr with
  | some tid, some wk, some cg, some ti, some co, some so, some ca =>
    some ⟨tid, wk, cg, ti, co, so, ca⟩
  | _, _, _, _, _, _, _ => none

/-- `StorageManager._deserialize_state`. -/
def deserialize_state (now : String) (j : JValue) : Option AppState :=
  match deserialize_roadmap now (j.getD "roadmap" (.obj [])),
      deserialize_progress now (j.getD "progress" (.obj [])),
      (j.getD "resources" (.arr [])).asArr.bind (optMap (deserializeResource now)),
      (j.getD "flashcard_decks" (.arr [])).asArr.bind (optMap (deserialize_deck now)),
      (j.getD "github_projects" (.arr [])).asArr.bind (optMap (deserializeProject now)),
      (j.getD "weekly_tips" (.arr [])).asArr.bind (optMap (deserializeTip now)),
      (j.getD "last_updated" (.str now)).asStr with
  | some rm, some pg, some rs, some dk, some pj, some tp, some lu =>
    some ⟨rm, pg, rs, dk, pj, tp, lu⟩
  | _, _, _, _, _, _, _ => none

/-! ## Concrete inputs used by witnesses and counterexamples -/

/-- A progress state whose session history is empty but whose streak fields
are stale. -/
def staleEmptyProgress : ProgressState :=
  { daily_sessions := [], current_streak := 3, longest_streak := 5 }

/-- A history with sessions on days 1, 2, 3 and 5 (a 3-run and a 1-run). -/
def gapHistory : ProgressState :=
  { daily_sessions :=
      [{ date := 1, duration_hours := 1, topics_covered := ["a"], resources_used := [], notes := "" },
       { date := 2, duration_hours := 1, topics_covered := ["b"], resources_used := [], notes := "" },
       { date := 3, duration_hours := 1, topics_covered := ["c"], resources_used := [], notes := "" },
       { date := 5, duration_hours := 1, topics_covered := ["d"], resources_used := [], notes := "" }] }

/-- A freshly created NEW card. -/
def sampleCard : Flashcard :=
  { card_id := "c1", question := "q", answer := "a", topic := "t" }

/-- A deck holding just `sampleCard`. -/
def sampleDeck : FlashcardDeck :=
  { deck_id := "d1", topic := "t", description := "", cards := [sampleCard] }

/-- A mastered card scheduled far in the future (next_review = hour 720). -/
def farScheduledCard : Flashcard :=
  { card_id := "c2", question := "q", answer := "a", topic := "t",
    status := .mastered, review_count := 1, next_review := some 720 }

/-- A mastered card that is due (next_review has arrived) with a high
review count. -/
def dueMasteredCard : Flashcard :=
  { card_id := "m", question := "q", answer := "a", topic := "t",
    status := .mastered, review_count := 5, next_review := some 0 }

/-- A reviewing card that is not yet due, with a low review count. -/
def notDueReviewingCard : Flashcard :=
  { card_id := "r", question := "q", answer := "a", topic := "t",
    status := .reviewing, review_count := 0, next_review := some 100 }

/-- A deck holding a due MASTERED card and a not-yet-due REVIEWING card. -/
def mixedDeck : FlashcardDeck :=
  { deck_id := "d2", topic := "t", description := "",
    cards := [dueMasteredCard, notDueReviewingCard] }

/-- A week with no tasks. -/
def emptyWeekNode : RoadmapNode :=
  .week { week_num := 1, name := "w", description := "" }

/-! ## Shared helper lemmas -/

/-- Outcome "mastered": status MASTERED, next review 30 days out. -/
lemma reviewCard_mastered (now : Nat) (c : Flashcard) :
    reviewCard now "mastered" c =
      { c with status := .mastered, next_review := some (now + 30 * 24),
               review_count := c.review_count + 1, last_reviewed := some now } := by
  cases c; simp [reviewCard]

/-- Outcome "easy": status REVIEWING, next review 7 days out. -/
lemma reviewCard_easy (now : Nat) (c : Flashcard) :
    reviewCard now "easy" c =
      { c with status := .reviewing, next_review := some (now + 7 * 24),
               review_count := c.review_count + 1, last_reviewed := some now } := by
  cases c; simp [reviewCard]

/-- Outcome "hard": status REVIEWING, next review 1 day out. -/
lemma reviewCard_hard (now : Nat) (c : Flashcard) :
    reviewCard now "hard" c =
      { c with status := .reviewing, next_review := some (now + 1 * 24),
               review_count := c.review_count + 1, last_reviewed := some now } := by
  cases c; simp [reviewCard]

/-- Outcome "difficult": status DIFFICULT, next review 6 hours out. -/
lemma reviewCard_difficult (now : Nat) (c : Flashcard) :
    reviewCard now "difficult" c =
      { c with status := .difficult, next_review := some (now + 6),
               review_count := c.review_count + 1, last_reviewed := some now } := by
  cases c; simp [reviewCard]

/-! ## Claim theorems -/

/-- Claim C2: for every session history, after a streak recomputation the
resulting state satisfies `longest_streak ≥ current_streak`. -/
theorem longest_streak_ge_current_streak (today : Nat) (p : ProgressState) :
    (update_streak today p).current_streak ≤ (update_streak today p).longest_streak := by
  unfold update_streak
  split
  · exact Nat.zero_le _
  · dsimp only
    split
    · exact Nat.zero_le _
    · split
      · exact le_max_right _ _
      · split
        · exact le_max_right _ _
        · exact Nat.zero_le _

/-- Claim C8 counterexample: on an empty session list `_update_streak` zeroes
only `current_streak` and returns early, so a stale `longest_streak` (here 5)
survives, contradicting "longest_streak = 0 regardless of the values those
fields held before the call". -/
theorem update_streak_empty_cex :
    (update_streak 7 staleEmptyProgress).current_streak = 0 ∧
    (update_streak 7 staleEmptyProgress).longest_streak = 5 ∧ (5 : Nat) ≠ 0 := by
  decide

/-- Claim C8 (amended): on an empty session list the recomputation sets
`current_streak = 0` (whatever it was before) and leaves `longest_streak`
unchanged. -/
theorem update_streak_empty_sessions (today : Nat) (p : ProgressState)
    (h : p.daily_sessions = []) :
    (update_streak today p).current_streak = 0 ∧
    (update_streak today p).longest_streak = p.longest_streak := by
  unfold update_streak
  rw [if_pos h]
  exact ⟨rfl, rfl⟩

/-- Claim C8 witness: the amended statement at the concrete stale state. -/
theorem update_streak_empty_sessions_witness :
    staleEmptyProgress.daily_sessions = [] ∧
    ((update_streak 7 staleEmptyProgress).current_streak = 0 ∧
     (update_streak 7 staleEmptyProgress).longest_streak = staleEmptyProgress.longest_streak) :=
  ⟨rfl, update_streak_empty_sessions 7 staleEmptyProgress rfl⟩

/-- Claim C3: for every flashcard and recognized outcome,
`mark_card_review`'s per-card update follows the transition table (MASTERED /
30 days, EASY → REVIEWING / 7 days, HARD → REVIEWING / 1 day, DIFFICULT / 6
hours), NEW never survives a review (the EASY/HARD rows land on REVIEWING and
the other rows set MASTERED/DIFFICULT), and `review_count` increments by
exactly 1. -/
theorem mark_card_review_outcome_table (now : Nat) (c : Flashcard) :
    reviewCard now "mastered" c =
      { c with status := .mastered, next_review := some (now + 30 * 24),
               review_count := c.review_count + 1, last_reviewed := some now } ∧
    reviewCard now "easy" c =
      { c with status := .reviewing, next_review := some (now + 7 * 24),
               review_count := c.review_count + 1, last_reviewed := some now } ∧
    reviewCard now "hard" c =
      { c with status := .reviewing, next_review := some (now + 1 * 24),
               review_count := c.review_count + 1, last_reviewed := some now } ∧
    reviewCard now "difficult" c =
      { c with status := .difficult, next_review := some (now + 6),
               review_count := c.review_count + 1, last_reviewed := some now } :=
  ⟨reviewCard_mastered now c, reviewCard_easy now c,
   reviewCard_hard now c, reviewCard_difficult now c⟩

/-- Claim C5 counterexample: an unrecognized outcome is not rejected before
mutation — reviewing `sampleCard` with outcome "bogus" changes the deck
(review_count and total_reviews increment, last_reviewed is stamped, the NEW
card is forced to REVIEWING). -/
theorem mark_card_review_unrecognized_mutates_cex :
    (mark_card_review 0 "c1" "bogus" [sampleDeck]).1 ≠ [sampleDeck] := by
  decide

/-- Claim C5 (amended): on an outcome outside the four recognized ones,
`mark_card_review` does not reject the call; the per-card update still
increments `review_count`, stamps `last_reviewed`, leaves `next_review`
unchanged and forces a NEW card to REVIEWING (other statuses unchanged) —
and the containing deck's `total_reviews` is incremented (see the
counterexample). -/
theorem reviewCard_unrecognized (now : Nat) (c : Flashcard) (result : String)
    (h : result ∉ (["easy", "hard", "difficult", "mastered"] : List String)) :
    reviewCard now result c =
      { c with review_count := c.review_count + 1, last_reviewed := some now,
               status := if c.status = .new then .reviewing else c.status } := by
  simp only [List.mem_cons, List.not_mem_nil, or_false, not_or] at h
  obtain ⟨h1, h2, h3, h4⟩ := h
  cases c with
  | mk cid qn an tp st df rc lr ca nr =>
    by_cases hs : st = CardStatus.new <;> simp [reviewCard, h1, h2, h3, h4, hs]

/-- Claim C5 witness: the amended statement at the concrete NEW card and the
outcome "bogus". -/
theorem reviewCard_unrecognized_witness :
    ("bogus" ∉ (["easy", "hard", "difficult", "mastered"] : List String)) ∧
    reviewCard 3 "bogus" sampleCard =
      { sampleCard with review_count := sampleCard.review_count + 1,
                        last_reviewed := some 3,
                        status := if sampleCard.status = .new then .reviewing
                                  else sampleCard.status } :=
  ⟨by decide, reviewCard_unrecognized 3 sampleCard "bogus" (by decide)⟩

/-- Claim C6 counterexample: logging a session with `duration_hours = -1` is
not rejected — the session is appended and `total_hours` changes. -/
theorem log_session_negative_duration_cex :
    ¬ ((log_session 5 (-1) [] [] "" none {}).daily_sessions =
         ({} : ProgressState).daily_sessions ∧
       (log_session 5 (-1) [] [] "" none {}).total_hours =
         ({} : ProgressState).total_hours) := by
  decide

/-- Claim C6 (amended): `log_session` performs no duration validation — for
every `duration_hours`, negative included, it appends the session, adds the
duration to `total_hours` and sets `last_session_date`. -/
theorem log_session_no_validation (today : Nat) (d : Rat) (topics resources : List String)
    (notes : String) (mood : Option String) (p : ProgressState) :
    (log_session today d topics resources notes mood p).daily_sessions =
      p.daily_sessions ++
        [{ date := today, duration_hours := d, topics_covered := topics,
           resources_used := resources, notes := notes, mood := mood }] ∧
    (log_session today d topics resources notes mood p).total_hours = p.total_hours + d ∧
    (log_session today d topics resources notes mood p).last_session_date = some today := by
  unfold log_session update_streak
  dsimp only
  split
  · exact ⟨rfl, rfl, rfl⟩
  · exact ⟨rfl, rfl, rfl⟩

/-- Claim C7 counterexample: reviewing the far-scheduled card (next review at
hour 720) at hour 0 with outcome "difficult" reschedules it to hour 6 — the
new `next_review` is *earlier* than the old one, refuting "next_review moves
strictly forward in time on every review". -/
theorem next_review_moves_backward_cex :
    ¬ (∀ t t', farScheduledCard.next_review = some t →
        (reviewCard 0 "difficult" farScheduledCard).next_review = some t' → t < t') := by
  intro h
  have := h 720 6 (by decide) (by decide)
  omega

/-- Claim C7 (amended): for the four recognized outcomes the rescheduled
`next_review` is strictly later than the review time `as_of`; consequently it
is strictly later than the previous `next_review` whenever the card is
reviewed at or after its scheduled time (but not in general: reviewing early
with a shorter-interval outcome moves `next_review` backwards). -/
theorem next_review_after_recognized_outcome (now : Nat) (c : Flashcard) (result : String)
    (h : result ∈ (["easy", "hard", "difficult", "mastered"] : List String)) :
    ∃ t', (reviewCard now result c).next_review = some t' ∧ now < t' ∧
      ∀ t, c.next_review = some t → t ≤ now → t < t' := by
  simp only [List.mem_cons, List.not_mem_nil, or_false] at h
  rcases h with rfl | rfl | rfl | rfl
  · exact ⟨now + 7 * 24, by rw [reviewCard_easy], by omega, fun t _ ht => by omega⟩
  · exact ⟨now + 1 * 24, by rw [reviewCard_hard], by omega, fun t _ ht => by omega⟩
  · exact ⟨now + 6, by rw [reviewCard_difficult], by omega, fun t _ ht => by omega⟩
  · exact ⟨now + 30 * 24, by rw [reviewCard_mastered], by omega, fun t _ ht => by omega⟩

/-- Claim C7 witness: the amended statement at the concrete far-scheduled
card reviewed at hour 0 with outcome "difficult". -/
theorem next_review_after_recognized_outcome_witness :
    ("difficult" ∈ (["easy", "hard", "difficult", "mastered"] : List String)) ∧
    (∃ t', (reviewCard 0 "difficult" farScheduledCard).next_review = some t' ∧ 0 < t' ∧
      ∀ t, farScheduledCard.next_review = some t → t ≤ 0 → t < t') :=
  ⟨by decide, next_review_after_recognized_outcome 0 farScheduledCard "difficult" (by decide)⟩

/-- The tier the code computes is the amended spec tier: the only difference
from the spec sentence is that tier 2 does not require status REVIEWING. -/
lemma codeTier_eq_claimTierAmended (now : Nat) (c : Flashcard) :
    codeTier now c = claimTierAmended now c := by
  unfold codeTier claimTierAmended
  by_cases h1 : c.status = CardStatus.new
  · simp [h1]
  · by_cases h2 : c.status = CardStatus.difficult
    · simp [h1, h2]
    · cases hnr : c.next_review with
      | none => simp [h1, h2, hnr]
      | some t =>
        by_cases h3 : t ≤ now
        · simp [h1, h2, hnr, h3]
        · simp [h1, h2, hnr, h3]

/-- Claim C4 counterexample: with a due MASTERED card (review_count 5) and a
not-yet-due REVIEWING card (review_count 0) the code puts the MASTERED card
in tier 2 and returns it first, while the spec's ordering (tier 2 restricted
to REVIEWING cards) would return the REVIEWING card first. -/
theorem get_cards_for_review_ordering_cex :
    get_cards_for_review 10 2 [mixedDeck] ≠ select_due_claim 10 2 [mixedDeck] := by
  decide

/-- Claim C4 (amended): `get_cards_for_review` returns at most `limit` cards
from the head of the stable ordering NEW, then DIFFICULT, then cards whose
`next_review` is set and `≤ as_of` (due REVIEWING *or MASTERED* cards), then
all remaining cards, ties within a tier broken by ascending `review_count`. -/
theorem get_cards_for_review_eq_select_due_amended (now limit : Nat)
    (decks : List FlashcardDeck) :
    get_cards_for_review now limit decks = select_due_amended now limit decks := by
  have hf : codeTier now = claimTierAmended now :=
    funext (codeTier_eq_claimTierAmended now)
  unfold get_cards_for_review select_due_amended
  exact congrArg
    (fun f => (List.insertionSort (tierOrder f) ((decks.map (·.cards)).flatten)).take limit) hf

/-- Claim C10: the completion percentage is always in `[0, 100]` (it is a
`Nat`, so the content is the upper bound), and an empty child list yields 0,
so the division by the number of children is never a division by zero. -/
theorem calculate_completion_bounds (node : RoadmapNode) :
    calculate_completion node ≤ 100 ∧
    (node.childStatuses = [] → calculate_completion node = 0) := by
  unfold calculate_completion
  by_cases h : node.childStatuses = []
  · simp [h]
  · refine ⟨?_, fun hc => absurd hc h⟩
    have hlen : 0 < node.childStatuses.length := List.length_pos.mpr h
    simp only [h, if_false]
    calc 100 * node.childStatuses.countP (· = .completed) / node.childStatuses.length
        ≤ 100 * node.childStatuses.length / node.childStatuses.length :=
          Nat.div_le_div_right (Nat.mul_le_mul_left 100 (List.countP_le_length _))
      _ = 100 := Nat.mul_div_cancel 100 hlen

/-- Claim C10 witness: at a week with no tasks the percentage is 0. -/
theorem calculate_completion_empty_witness : calculate_completion emptyWeekNode = 0 :=
  (calculate_completion_bounds emptyWeekNode).2 rfl

/-! ## Persistence round-trip (claim C9) -/

/-- Element-wise inverse deserializers invert mapped serializers. -/
lemma optMap_roundtrip {α β : Type} (f : α → β) (g : β → Option α)
    (h : ∀ a, g (f a) = some a) : ∀ l : List α, optMap g (l.map f) = some l := by
  intro l
  induction l with
  | nil => rfl
  | cons a l ih => simp [optMap, h, ih]

/-- The `Enum` constructor inverts `.value`. -/
lemma milestone_ofValue_value (s : MilestoneStatus) : MilestoneStatus.ofValue s.value = some s := by
  cases s <;> rfl

/-- The `Enum` constructor inverts `.value`. -/
lemma resource_ofValue_value (s : ResourceStatus) : ResourceStatus.ofValue s.value = some s := by
  cases s <;> rfl

/-- The `Enum` constructor inverts `.value`. -/
lemma difficulty_ofValue_value (s : DifficultyLevel) : DifficultyLevel.ofValue s.value = some s := by
  cases s <;> rfl

/-- The `Enum` constructor inverts `.value`. -/
lemma cardStatus_ofValue_value (s : CardStatus) : CardStatus.ofValue s.value = some s := by
  cases s <;> rfl

/-- The `Enum` constructor inverts `.value`. -/
lemma project_ofValue_value (s : ProjectStatus) : ProjectStatus.ofValue s.value = some s := by
  cases s <;> rfl

/-- Optional strings round-trip. -/
lemma asOptStr_jOptStr (o : Option String) : (jOptStr o).asOptStr = some o := by
  cases o <;> rfl

/-- Optional timestamps round-trip. -/
lemma asOptNat_jOptNat (o : Option Nat) : (jOptNat o).asOptNat = some o := by
  cases o <;> rfl

/-- String lists round-trip. -/
lemma asStrList_jStrList (l : List String) : (jStrList l).asStrList = some l := by
  simp only [jStrList, JValue.asStrList, JValue.asArr, Option.bind_some]
  exact optMap_roundtrip JValue.str JValue.asStr (fun _ => rfl) l

/-- Task dicts round-trip. -/
lemma task_roundtrip (t : WeeklyTask) : deserializeTask (serializeTask t) = some t := by
  cases t
  simp [deserializeTask, serializeTask, JValue.lookup, lookupField, JValue.getD,
    JValue.asStr, JValue.asNat, milestone_ofValue_value]

/-- Week dicts round-trip. -/
lemma week_roundtrip (w : Week) : deserializeWeek (serializeWeek w) = some w := by
  cases w
  simp [deserializeWeek, serializeWeek, JValue.lookup, lookupField, JValue.getD,
    JValue.asStr, JValue.asNat, JValue.asArr, milestone_ofValue_value,
    optMap_roundtrip serializeTask deserializeTask task_roundtrip]

/-- Month dicts round-trip. -/
lemma month_roundtrip (m : Month) : deserializeMonth (serializeMonth m) = some m := by
  cases m
  simp [deserializeMonth, serializeMonth, JValue.lookup, lookupField, JValue.getD,
    JValue.asStr, JValue.asNat, JValue.asArr, milestone_ofValue_value,
    optMap_roundtrip serializeWeek deserializeWeek week_roundtrip]

/-- Quarter dicts round-trip. -/
lemma quarter_roundtrip (q : Quarter) : deserializeQuarter (serializeQuarter q) = some q := by
  cases q
  simp [deserializeQuarter, serializeQuarter, JValue.lookup, lookupField, JValue.getD,
    JValue.asStr, JValue.asNat, JValue.asArr, milestone_ofValue_value,
    asStrList_jStrList, optMap_roundtrip serializeMonth deserializeMonth month_roundtrip]

/-- Year dicts round-trip. -/
lemma year_roundtrip (y : Year) : deserializeYear (serializeYear y) = some y := by
  cases y
  simp [deserializeYear, serializeYear, JValue.lookup, lookupField, JValue.getD,
    JValue.asStr, JValue.asNat, JValue.asArr, milestone_ofValue_value,
    asStrList_jStrList, optMap_roundtrip serializeQuarter deserializeQuarter quarter_roundtrip]

/-- Roadmaps round-trip. -/
lemma roadmap_roundtrip (now : String) (r : Roadmap) :
    deserialize_roadmap now (serialize_roadmap r) = some r := by
  cases r
  simp [deserialize_roadmap, serialize_roadmap, JValue.lookup, lookupField, JValue.getD,
    JValue.asStr, JValue.asArr,
    optMap_roundtrip serializeYear deserializeYear year_roundtrip]

/-- Session dicts round-trip. -/
lemma session_roundtrip (now : String) (s : DailySession) :
    deserializeSession now (serializeSession s) = some s := by
  cases s
  simp [deserializeSession, serializeSession, JValue.lookup, lookupField, JValue.getD,
    JValue.asStr, JValue.asNat, JValue.asRat, asStrList_jStrList, asOptStr_jOptStr]

/-- Progress states round-trip. -/
lemma progress_roundtrip (now : String) (p : ProgressState) :
    deserialize_progress now (serialize_progress p) = some p := by
  cases p
  simp [deserialize_progress, serialize_progress, JValue.lookup, lookupField, JValue.getD,
    JValue.asStr, JValue.asNat, JValue.asRat, JValue.asArr, asOptNat_jOptNat,
    optMap_roundtrip serializeSession (deserializeSession now) (session_roundtrip now)]

/-- Resource dicts round-trip. -/
lemma resource_roundtrip (now : String) (r : Resource) :
    deserializeResource now (serializeResource r) = some r := by
  cases r
  simp [deserializeResource, serializeResource, JValue.lookup, lookupField, JValue.getD,
    JValue.asStr, asStrList_jStrList, asOptStr_jOptStr,
    difficulty_ofValue_value, resource_ofValue_value]

/-- Card dicts round-trip. -/
lemma card_roundtrip (now : String) (c : Flashcard) :
    deserializeCard now (serializeCard c) = some c := by
  cases c
  simp [deserializeCard, serializeCard, JValue.lookup, lookupField, JValue.getD,
    JValue.asStr, JValue.asNat, asOptNat_jOptNat,
    cardStatus_ofValue_value, difficulty_ofValue_value]

/-- Deck dicts round-trip. -/
lemma deck_roundtrip (now : String) (d : FlashcardDeck) :
    deserialize_deck now (serialize_deck d) = some d := by
  cases d
  simp [deserialize_deck, serialize_deck, JValue.lookup, lookupField, JValue.getD,
    JValue.asStr, JValue.asNat, JValue.asArr,
    optMap_roundtrip serializeCard (deserializeCard now) (card_roundtrip now)]

/-- Project dicts round-trip. -/
lemma project_roundtrip (now : String) (p : GitHubProject) :
    deserializeProject now (serializeProject p) = some p := by
  cases p
  simp [deserializeProject, serializeProject, JValue.lookup, lookupField, JValue.getD,
    JValue.asStr, JValue.asBool, asStrList_jStrList, asOptStr_jOptStr,
    project_ofValue_value]

/-- Tip dicts round-trip. -/
lemma tip_roundtrip (now : String) (t : WeeklyTip) :
    deserializeTip now (serializeTip t) = some t := by
  cases t
  simp [deserializeTip, serializeTip, JValue.lookup, lookupField, JValue.getD,
    JValue.asStr, JValue.asNat]

/-- Claim C9: serializing the application state and deserializing the result
reproduces every field value — the ProgressState with every DailySession,
every FlashcardDeck and Flashcard (and the rest of the state as well):
persistence is a lossless round-trip. -/
theorem serialize_state_roundtrip (now : String) (st : AppState) :
    deserialize_state now (serialize_state st) = some st := by
  cases st
  simp [deserialize_state, serialize_state, JValue.lookup, lookupField, JValue.getD,
    JValue.asStr, JValue.asArr, roadmap_roundtrip, progress_roundtrip,
    optMap_roundtrip serializeResource (deserializeResource now) (resource_roundtrip now),
    optMap_roundtrip serialize_deck (deserialize_deck now) (deck_roundtrip now),
    optMap_roundtrip serializeProject (deserializeProject now) (project_roundtrip now),
    optMap_roundtrip serializeTip (deserializeTip now) (tip_roundtrip now)]

/-! ## Streak recomputation correctness (claim C1)

The loop invariant: while scanning the sorted distinct dates, the list
processed so far decomposes as `P ++ G` where `G` (the current run,
`Q ++ [prev]`) is a chain of consecutive dates of length `temp_streak`,
there is a gap between `P` and `G`, and `longest_streak` bounds exactly the
chains inside `P`. -/

/-- Head of an append with a nonempty left part. -/
lemma head?_append_left {α : Type} {l l' : List α} (h : l ≠ []) :
    (l ++ l').head? = l.head? := by
  cases l with
  | nil => exact absurd rfl h
  | cons a as => rfl

/-- A chain infix of `P ++ G` with no consecutive step across the boundary
lies entirely inside `P` or entirely inside `G`. -/
lemma chain_infix_split {P G r : List Nat}
    (hgap : ∀ x ∈ P.getLast?, ∀ y ∈ G.head?, ¬ consecutive x y)
    (hr : r <:+: P ++ G) (hc : List.Chain' consecutive r) :
    r <:+: P ∨ r <:+: G := by
  obtain ⟨s, u, hsu⟩ := hr
  rw [List.append_assoc] at hsu
  rcases List.append_eq_append_iff.mp hsu with ⟨a', hP, hru⟩ | ⟨c', _, hG⟩
  · rcases List.append_eq_append_iff.mp hru with ⟨w, ha', _⟩ | ⟨w, hr', hGw⟩
    · left
      exact ⟨s, w, by rw [hP, ha', List.append_assoc]⟩
    · rcases eq_or_ne a' [] with rfl | ha
      · right
        refine ⟨[], u, ?_⟩
        rw [hGw]
        simp only [List.nil_append] at hr' ⊢
        rw [hr']
      · rcases eq_or_ne w [] with rfl | hw
        · left
          refine ⟨s, [], ?_⟩
          rw [List.append_nil] at hr' ⊢
          rw [hP, hr']
        · exfalso
          rw [hr'] at hc
          obtain ⟨-, -, hcross⟩ := List.chain'_append.mp hc
          obtain ⟨x, hx⟩ := Option.isSome_iff_exists.mp (List.getLast?_isSome.mpr ha)
          obtain ⟨y, hy⟩ := Option.isSome_iff_exists.mp (List.head?_isSome.mpr hw)
          refine hgap x ?_ y ?_ (hcross x hx y hy)
          · rw [hP, List.getLast?_append_of_ne_nil _ ha]
            exact hx
          · rw [hGw, head?_append_left hw]
            exact hy
  · right
    exact ⟨c', u, by rw [hG, List.append_assoc]⟩

/-- A chain suffix of `P ++ G` (gap at the boundary, `G` nonempty) is at most
as long as `G` — the final run cannot reach back across the gap. -/
lemma chain_suffix_bound {P G r : List Nat} (hG : G ≠ [])
    (hgap : ∀ x ∈ P.getLast?, ∀ y ∈ G.head?, ¬ consecutive x y)
    (hr : r <:+ P ++ G) (hc : List.Chain' consecutive r) :
    r.length ≤ G.length := by
  obtain ⟨s, hs⟩ := hr
  rcases List.append_eq_append_iff.mp hs with ⟨a', hP, hr'⟩ | ⟨c', _, hG'⟩
  · rcases eq_or_ne a' [] with rfl | ha
    · simp only [List.nil_append] at hr'
      exact le_of_eq (congrArg List.length hr')
    · exfalso
      rw [hr'] at hc
      obtain ⟨-, -, hcross⟩ := List.chain'_append.mp hc
      obtain ⟨x, hx⟩ := Option.isSome_iff_exists.mp (List.getLast?_isSome.mpr ha)
      obtain ⟨y, hy⟩ := Option.isSome_iff_exists.mp (List.head?_isSome.mpr hG)
      refine hgap x ?_ y hy (hcross x hx y hy)
      rw [hP, List.getLast?_append_of_ne_nil _ ha]
      exact hx
  · exact List.IsSuffix.length_le ⟨c', hG'.symm⟩

/-- Extending the processed part by the closed run `G`: the best chain length
becomes `max l G.length`, achieved. -/
lemma chain_infix_max_achieve {P G : List Nat} {l : Nat}
    (hGchain : List.Chain' consecutive G)
    (hl₁ : ∃ r, r <:+: P ∧ List.Chain' consecutive r ∧ r.length = l) :
    ∃ r, r <:+: P ++ G ∧ List.Chain' consecutive r ∧ r.length = max l G.length := by
  rcases le_total l G.length with h | h
  · exact ⟨G, (List.suffix_append P G).isInfix, hGchain, (Nat.max_eq_right h).symm⟩
  · obtain ⟨r, hri, hrc, hrl⟩ := hl₁
    exact ⟨r, hri.trans (List.prefix_append P G).isInfix, hrc,
      by rw [Nat.max_eq_left h]; exact hrl⟩

/-- Extending the processed part by the closed run `G`: `max l G.length`
bounds every chain. -/
lemma chain_infix_max_bound {P G : List Nat} {l : Nat}
    (hgap : ∀ x ∈ P.getLast?, ∀ y ∈ G.head?, ¬ consecutive x y)
    (hl₂ : ∀ r, r <:+: P → List.Chain' consecutive r → r.length ≤ l) :
    ∀ r, r <:+: P ++ G → List.Chain' consecutive r → r.length ≤ max l G.length := by
  intro r hr hc
  rcases chain_infix_split hgap hr hc with h | h
  · exact le_trans (hl₂ r h hc) (le_max_left _ _)
  · exact le_trans h.length_le (le_max_right _ _)

/-- The streak loop invariant: processing the remaining dates `ds` after the
context `P ++ (Q ++ [prev])` (current run `Q ++ [prev]` of length
`temp = t`, closed-run maximum `l`), the final `max longest temp` is the
maximum chain length of the whole list and the final `temp` is the maximum
length of a chain suffix. -/
lemma streak_loop_spec :
    ∀ (ds P Q : List Nat) (prev l t : Nat),
      List.Chain' consecutive (Q ++ [prev]) →
      t = Q.length + 1 →
      (∀ x ∈ P.getLast?, ∀ y ∈ (Q ++ [prev]).head?, ¬ consecutive x y) →
      (∃ r, r <:+: P ∧ List.Chain' consecutive r ∧ r.length = l) →
      (∀ r, r <:+: P → List.Chain' consecutive r → r.length ≤ l) →
      (∃ r, r <:+: (P ++ (Q ++ [prev]) ++ ds) ∧ List.Chain' consecutive r ∧
          r.length = max (streak_loop prev l t ds).1 (streak_loop prev l t ds).2) ∧
      (∀ r, r <:+: (P ++ (Q ++ [prev]) ++ ds) → List.Chain' consecutive r →
          r.length ≤ max (streak_loop prev l t ds).1 (streak_loop prev l t ds).2) ∧
      (∃ r, r <:+ (P ++ (Q ++ [prev]) ++ ds) ∧ List.Chain' consecutive r ∧
          r.length = (streak_loop prev l t ds).2) ∧
      (∀ r, r <:+ (P ++ (Q ++ [prev]) ++ ds) → List.Chain' consecutive r →
          r.length ≤ (streak_loop prev l t ds).2) := by
  intro ds
  induction ds with
  | nil =>
    intro P Q prev l t hQ ht hgap hl₁ hl₂
    simp only [streak_loop, List.append_nil]
    have hGlen : (Q ++ [prev]).length = t := by simp [ht]
    refine ⟨?_, ?_, ?_, ?_⟩
    · have := chain_infix_max_achieve hQ hl₁
      rwa [hGlen] at this
    · have := chain_infix_max_bound hgap hl₂
      rwa [hGlen] at this
    · exact ⟨Q ++ [prev], List.suffix_append P (Q ++ [prev]), hQ, hGlen⟩
    · intro r hr hc
      have := chain_suffix_bound (by simp) hgap hr hc
      omega
  | cons d ds ih =>
    intro P Q prev l t hQ ht hgap hl₁ hl₂
    by_cases hd : d - prev = 1
    · have hstep : streak_loop prev l t (d :: ds) = streak_loop d l (t + 1) ds := by
        simp [streak_loop, hd]
      have hQ' : List.Chain' consecutive ((Q ++ [prev]) ++ [d]) := by
        rw [List.chain'_append]
        refine ⟨hQ, List.chain'_singleton d, ?_⟩
        intro x hx y hy
        rw [List.getLast?_concat] at hx
        simp only [List.head?_cons, Option.mem_some_iff] at hx hy
        subst hx
        subst hy
        unfold consecutive
        omega
      have ht' : t + 1 = (Q ++ [prev]).length + 1 := by simp [ht]
      have hgap' : ∀ x ∈ P.getLast?, ∀ y ∈ ((Q ++ [prev]) ++ [d]).head?,
          ¬ consecutive x y := by
        intro x hx y hy
        rw [head?_append_left (by simp : (Q ++ [prev] : List Nat) ≠ [])] at hy
        exact hgap x hx y hy
      have H := ih P (Q ++ [prev]) d l (t + 1) hQ' ht' hgap' hl₁ hl₂
      have hlist : P ++ ((Q ++ [prev]) ++ [d]) ++ ds = P ++ (Q ++ [prev]) ++ (d :: ds) := by
        simp [List.append_assoc]
      rw [hstep]
      rwa [hlist] at H
    · have hstep : streak_loop prev l t (d :: ds) = streak_loop d (max l t) 1 ds := by
        simp [streak_loop, hd]
      have hGlen : (Q ++ [prev]).length = t := by simp [ht]
      have hQ' : List.Chain' consecutive (([] : List Nat) ++ [d]) := by
        simp only [List.nil_append]
        exact List.chain'_singleton d
      have ht' : (1 : Nat) = ([] : List Nat).length + 1 := rfl
      have hgap' : ∀ x ∈ (P ++ (Q ++ [prev])).getLast?,
          ∀ y ∈ (([] : List Nat) ++ [d]).head?, ¬ consecutive x y := by
        intro x hx y hy
        rw [List.getLast?_append_of_ne_nil _ (by simp : (Q ++ [prev] : List Nat) ≠ []),
          List.getLast?_concat] at hx
        simp only [List.nil_append, List.head?_cons, Option.mem_some_iff] at hx hy
        subst hx
        subst hy
        unfold consecutive
        omega
      have hl₁' : ∃ r, r <:+: P ++ (Q ++ [prev]) ∧ List.Chain' consecutive r ∧
          r.length = max l t := by
        have := chain_infix_max_achieve hQ hl₁
        rwa [hGlen] at this
      have hl₂' : ∀ r, r <:+: P ++ (Q ++ [prev]) → List.Chain' consecutive r →
          r.length ≤ max l t := by
        have := chain_infix_max_bound hgap hl₂
        rwa [hGlen] at this
      have H := ih (P ++ (Q ++ [prev])) [] d (max l t) 1 hQ' ht' hgap' hl₁' hl₂'
      have hlist : (P ++ (Q ++ [prev])) ++ (([] : List Nat) ++ [d]) ++ ds =
          P ++ (Q ++ [prev]) ++ (d :: ds) := by
        simp [List.append_assoc]
      rw [hstep]
      rwa [hlist] at H

/-- The loop started the way `_update_streak` starts it (`longest = 0`,
`temp = 1` after the first date) computes the maximum run length and the
maximum end-run length of the whole sorted date list. -/
lemma streak_loop_full (d : Nat) (ds : List Nat) :
    (∃ r, IsRun (d :: ds) r ∧
        r.length = max (streak_loop d 0 1 ds).1 (streak_loop d 0 1 ds).2) ∧
    (∀ r, IsRun (d :: ds) r →
        r.length ≤ max (streak_loop d 0 1 ds).1 (streak_loop d 0 1 ds).2) ∧
    (∃ r, IsEndRun (d :: ds) r ∧ r.length = (streak_loop d 0 1 ds).2) ∧
    (∀ r, IsEndRun (d :: ds) r → r.length ≤ (streak_loop d 0 1 ds).2) := by
  have H := streak_loop_spec ds [] [] d 0 1 (by simp) rfl (by simp)
    ⟨[], List.nil_infix, List.chain'_nil, rfl⟩
    (fun r hr _ => by simpa using hr.length_le)
  simp only [List.nil_append] at H
  obtain ⟨⟨r1, h1a, h1b, h1c⟩, H2, ⟨r3, h3a, h3b, h3c⟩, H4⟩ := H
  exact ⟨⟨r1, ⟨h1a, h1b⟩, h1c⟩, fun r hr => H2 r hr.1 hr.2,
    ⟨r3, ⟨h3a, h3b⟩, h3c⟩, fun r hr => H4 r hr.1 hr.2⟩

/-- A nonempty history has a nonempty sorted distinct-date list. -/
lemma sortedDates_ne_nil {sessions : List DailySession} (h : sessions ≠ []) :
    sortedDates sessions ≠ [] := by
  unfold sortedDates
  intro hnil
  have hlen := congrArg List.length hnil
  rw [List.length_insertionSort] at hlen
  have hd : (sessions.map (·.date)).dedup = [] := List.eq_nil_of_length_eq_zero hlen
  rw [List.dedup_eq_nil] at hd
  exact h (List.map_eq_nil_iff.mp hd)

/-- Evaluation of the two streak fields on a nonempty history. -/
lemma update_streak_fields (today : Nat) (p : ProgressState) (d : Nat) (ds : List Nat)
    (h : p.daily_sessions ≠ []) (hd : sortedDates p.daily_sessions = d :: ds) :
    (update_streak today p).longest_streak =
      max (streak_loop d 0 1 ds).1 (streak_loop d 0 1 ds).2 ∧
    (update_streak today p).current_streak =
      (match (d :: ds).getLast? with
       | none => 0
       | some last =>
         if (today : Int) - (last : Int) = 0 then (streak_loop d 0 1 ds).2
         else if (today : Int) - (last : Int) = 1 then (streak_loop d 0 1 ds).2
         else 0) := by
  unfold update_streak
  rw [if_neg h]
  dsimp only
  rw [hd]
  exact ⟨rfl, rfl⟩

/-- Claim C1: on a nonempty history, `_update_streak` computes
`longest_streak` as the maximum length of a run of consecutive distinct dates
(a run extends exactly when the gap between consecutive distinct dates is one
day), and `current_streak` as the length of the run ending at the most recent
logged date when that date is `as_of` (today) or exactly one day before
`as_of`, and 0 when the most recent date is two or more days before `as_of`. -/
theorem update_streak_streaks_correct (today : Nat) (p : ProgressState)
    (h : p.daily_sessions ≠ []) :
    ((∃ r, IsRun (sortedDates p.daily_sessions) r ∧
        r.length = (update_streak today p).longest_streak) ∧
     (∀ r, IsRun (sortedDates p.daily_sessions) r →
        r.length ≤ (update_streak today p).longest_streak)) ∧
    (∀ last, (sortedDates p.daily_sessions).getLast? = some last →
      ((last = today ∨ last + 1 = today →
          (∃ r, IsEndRun (sortedDates p.daily_sessions) r ∧
              r.length = (update_streak today p).current_streak) ∧
          (∀ r, IsEndRun (sortedDates p.daily_sessions) r →
              r.length ≤ (update_streak today p).current_streak)) ∧
       (last + 2 ≤ today → (update_streak today p).current_streak = 0))) := by
  obtain ⟨d, ds, hd⟩ := List.exists_cons_of_ne_nil (sortedDates_ne_nil h)
  obtain ⟨hlong, hcur⟩ := update_streak_fields today p d ds h hd
  rw [hd]
  obtain ⟨H1, H2, H3, H4⟩ := streak_loop_full d ds
  refine ⟨⟨?_, ?_⟩, ?_⟩
  · rw [hlong]
    exact H1
  · rw [hlong]
    exact H2
  · intro last hlast
    constructor
    · intro hfresh
      have hif : (update_streak today p).current_streak = (streak_loop d 0 1 ds).2 := by
        rw [hcur, hlast]
        dsimp only
        rcases hfresh with rfl | hfr
        · rw [if_pos (by omega : (last : Int) - (last : Int) = 0)]
        · rw [if_neg (by omega), if_pos (by omega : (today : Int) - (last : Int) = 1)]
      rw [hif]
      exact ⟨H3, H4⟩
    · intro hstale
      rw [hcur, hlast]
      dsimp only
      rw [if_neg (by omega), if_neg (by omega)]

/-- Claim C1 witness: the theorem applied to the concrete gap history (days
1, 2, 3 and 5) recomputed as of day 5. -/
theorem update_streak_streaks_correct_witness :
    gapHistory.daily_sessions ≠ [] ∧
    (((∃ r, IsRun (sortedDates gapHistory.daily_sessions) r ∧
        r.length = (update_streak 5 gapHistory).longest_streak) ∧
      (∀ r, IsRun (sortedDates gapHistory.daily_sessions) r →
        r.length ≤ (update_streak 5 gapHistory).longest_streak)) ∧
     (∀ last, (sortedDates gapHistory.daily_sessions).getLast? = some last →
       ((last = 5 ∨ last + 1 = 5 →
           (∃ r, IsEndRun (sortedDates gapHistory.daily_sessions) r ∧
               r.length = (update_streak 5 gapHistory).current_streak) ∧
           (∀ r, IsEndRun (sortedDates gapHistory.daily_sessions) r →
               r.length ≤ (update_streak 5 gapHistory).current_streak)) ∧
        (last + 2 ≤ 5 → (update_streak 5 gapHistory).current_streak = 0)))) :=
  ⟨by decide, update_streak_streaks_correct 5 gapHistory (by decide)⟩

end AICoach
